import Mathlib

set_option maxRecDepth 100000

/-!
Shallow embedding of the AM2320 hwmon driver core (src/am2320.c) and
verification of the specified properties of its measurement protocol:
the CRC-16 frame check, the sign-flag temperature decoding, the
rate-limiting cache, the configuration floor, and the error paths.

The i2c transport and the monotonic clock are external collaborators of
the driver; one call to am2320_read_values is modelled as a pure function
of the driver state and of an environment record holding the values those
collaborators would return during the call (the clock reading, the result
codes of the two sends, the byte count and payload of the receive).  The
function also returns the trace of transport operations it performed, so
that "no transaction happened" is observable.  ktime_t values are exact
integer nanoseconds; error codes are the negated errno values the C code
returns.
-/

namespace AM2320

/-! ## Constants (src/am2320.c lines 18-36) -/

def AM2320_MEAS_SIZE : Nat := 4

def AM2320_FRAME_SIZE : Nat := AM2320_MEAS_SIZE + 4

def AM2320_DEFAULT_MIN_POLL_INTERVAL : Int := 2000

def AM2320_MIN_POLL_INTERVAL : Int := 2000

def AM2320_FUNC_READ : Nat := 0x03

/-- Errno values used by the driver (negated on return, as in the kernel). -/
def EIO_errno : Int := 5

def EINVAL : Int := 22

def ENODATA : Int := 61

/-! ## Kernel time helpers used by the driver, as exact integer nanoseconds -/

def NSEC_PER_MSEC : Int := 1000000

def ms_to_ktime (ms : Int) : Int := ms * NSEC_PER_MSEC

def ktime_to_ms (kt : Int) : Int := kt / NSEC_PER_MSEC

def ktime_sub (a b : Int) : Int := a - b

/-- ktime_after(a, b) holds when a is strictly after b. -/
def ktime_after (a b : Int) : Bool := b < a

/-! ## Driver state (struct am2320_data, lines 50-61; the i2c client and
the mutex are the external transport handle and the lock, not data) -/

structure am2320_data where
  min_poll_interval : Int
  previous_poll_time : Int
  temperature : Int
  humidity : Int
deriving DecidableEq, Repr

/-- am2320_polltime_expired (lines 68-74): the current boottime clock value
is passed in explicitly in place of the ktime_get_boottime() call. -/
def am2320_polltime_expired (data : am2320_data) (current_time : Int) : Bool :=
  ktime_after (ktime_sub current_time data.previous_poll_time) data.min_poll_interval

/-! ## CRC-16 (am2320_crc16, lines 82-100) -/

/-- One iteration of the inner for-loop of am2320_crc16 (lines 90-96). -/
def crc16_round (crc : Nat) : Nat :=
  if crc &&& 0x01 ≠ 0 then (crc >>> 1) ^^^ 0xA001 else crc >>> 1

/-- Iterated rounds (the for-loop runs 8 of them per byte). -/
def crc16_rounds : Nat → Nat → Nat
  | 0, crc => crc
  | n + 1, crc => crc16_rounds n (crc16_round crc)

/-- Effect of one iteration of the while-loop of am2320_crc16 on the running
crc: xor the byte in, then 8 shift rounds (lines 89-96). -/
def crc16_byte (crc b : Nat) : Nat := crc16_rounds 8 (crc ^^^ b)

/-- The CRC-16 value am2320_crc16 computes over a byte list: initial value
0xFFFF, each byte folded in by crc16_byte. -/
def am2320_crc16_compute (bytes : List Nat) : Nat := bytes.foldl crc16_byte 0xFFFF

/-- am2320_crc16 (lines 82-100): data_crc is the trailing two bytes read
big-endian (line 84), the crc runs over the first count-2 bytes, and the
function returns the C truth value of crc == data_crc (line 99): true
exactly when they match. -/
def am2320_crc16 (raw_data : List Nat) (count : Nat) : Bool :=
  let data_crc := (raw_data.getD (count - 2) 0) <<< 8 ||| raw_data.getD (count - 1) 0
  am2320_crc16_compute (raw_data.take (count - 2)) == data_crc

/-! ## The measurement transaction (am2320_read_values, lines 107-175) -/

/-- get_unaligned_be16(&p[i]): big-endian 16-bit read of two bytes. -/
def get_unaligned_be16 (p : List Nat) (i : Nat) : Nat :=
  (p.getD i 0) <<< 8 ||| p.getD (i + 1) 0

/-- Sign handling of am2320_read_values lines 163-167: get the raw
big-endian word; bit 15 set means the low 15 bits are a negated magnitude. -/
def am2320_decode_temp (temp : Nat) : Int :=
  if temp &&& 0x8000 ≠ 0 then -((temp &&& 0x7FFF : Nat) : Int) else (temp : Int)

def cmd_wake : List Nat := [0x00]

def cmd_meas : List Nat := [AM2320_FUNC_READ, 0x00, AM2320_MEAS_SIZE]

/-- One transport operation, recorded in the trace of a call. -/
inductive i2c_op where
  | send : List Nat → i2c_op
  | recv : Nat → i2c_op
deriving DecidableEq, Repr

/-- Environment of one am2320_read_values call: what the clock and the i2c
transport return at each point of the call.  frame is the buffer content
after the receive; wake_res is the (discarded) result of the wake send. -/
structure i2c_env where
  now : Int
  wake_res : Int
  send_res : Int
  recv_res : Int
  frame : List Nat
  now2 : Int
deriving DecidableEq, Repr

/-- Result of one am2320_read_values call: the returned code, the state of
the am2320_data afterwards, and the transport operations performed. -/
structure read_result where
  res : Int
  data : am2320_data
  trace : List i2c_op
deriving DecidableEq, Repr

/-- am2320_read_values (lines 107-175), as a pure function of the prior
state and the call environment.  Each early return of the C function is one
branch; mutex operations and the settle delay have no data effect. -/
def am2320_read_values (data : am2320_data) (env : i2c_env) : read_result :=
  if ¬ am2320_polltime_expired data env.now then
    ⟨0, data, []⟩
  else if env.send_res < 0 then
    ⟨env.send_res, data, [i2c_op.send cmd_wake, i2c_op.send cmd_meas]⟩
  else if env.recv_res ≠ (AM2320_FRAME_SIZE : Int) then
    ⟨if 0 ≤ env.recv_res then -ENODATA else env.recv_res, data,
      [i2c_op.send cmd_wake, i2c_op.send cmd_meas, i2c_op.recv AM2320_FRAME_SIZE]⟩
  else if env.frame.getD 0 0 ≠ AM2320_FUNC_READ ∨ env.frame.getD 1 0 ≠ AM2320_MEAS_SIZE then
    ⟨-EIO_errno, data, [i2c_op.send cmd_wake, i2c_op.send cmd_meas, i2c_op.recv AM2320_FRAME_SIZE]⟩
  else if am2320_crc16 env.frame AM2320_FRAME_SIZE then
    ⟨-EIO_errno, data, [i2c_op.send cmd_wake, i2c_op.send cmd_meas, i2c_op.recv AM2320_FRAME_SIZE]⟩
  else
    ⟨0,
      { data with
        temperature := am2320_decode_temp (get_unaligned_be16 env.frame 4) * 100,
        humidity := (get_unaligned_be16 env.frame 2 : Int) * 100,
        previous_poll_time := env.now2 },
      [i2c_op.send cmd_wake, i2c_op.send cmd_meas, i2c_op.recv AM2320_FRAME_SIZE]⟩

/-! ## Configuration accessors (lines 182-197) -/

/-- am2320_interval_write (lines 182-188). -/
def am2320_interval_write (data : am2320_data) (val : Int) : Int × am2320_data :=
  if val < AM2320_MIN_POLL_INTERVAL then (-EINVAL, data)
  else (0, { data with min_poll_interval := ms_to_ktime val })

/-- am2320_interval_read (lines 193-197). -/
def am2320_interval_read (data : am2320_data) : Int :=
  ktime_to_ms data.min_poll_interval

/-- The am2320_data as am2320_probe builds it (lines 302-307): devm_kzalloc
zeroes every field, then min_poll_interval is set to the default. -/
def am2320_probe_data : am2320_data :=
  { min_poll_interval := ms_to_ktime AM2320_DEFAULT_MIN_POLL_INTERVAL,
    previous_poll_time := 0,
    temperature := 0,
    humidity := 0 }

/-! ## Helper lemmas -/

/-- Expiry test in arithmetic form. -/
lemma polltime_expired_iff (d : am2320_data) (now : Int) :
    am2320_polltime_expired d now = true ↔
      d.min_poll_interval < now - d.previous_poll_time := by
  simp [am2320_polltime_expired, ktime_after, ktime_sub]

/-- Reading a byte out of a byte-valued buffer stays below 256 (the default
0 of an out-of-range read also does). -/
lemma getD_lt_256 (l : List Nat) (i : Nat) (h : ∀ b ∈ l, b < 256) :
    l.getD i 0 < 256 := by
  induction l generalizing i with
  | nil => simp [List.getD]
  | cons a t ih =>
    cases i with
    | zero => simpa using h a (by simp)
    | succ j =>
      simpa using ih j (fun b hb => h b (by simp [hb]))

/-- A big-endian 16-bit read of byte values fits in 16 bits. -/
lemma get_unaligned_be16_lt (p : List Nat) (i : Nat) (h : ∀ b ∈ p, b < 256) :
    get_unaligned_be16 p i < 65536 := by
  have h1 : p.getD i 0 < 256 := getD_lt_256 p i h
  have h2 : p.getD (i + 1) 0 < 256 := getD_lt_256 p (i + 1) h
  have hs : (p.getD i 0) <<< 8 = p.getD i 0 * 256 := by
    rw [Nat.shiftLeft_eq]
  have he : (2 : Nat) ^ 16 = 65536 := by norm_num
  have hlt : (p.getD i 0) <<< 8 < 2 ^ 16 := by rw [hs, he]; omega
  have hlt2 : p.getD (i + 1) 0 < 2 ^ 16 := by rw [he]; omega
  have hor := Nat.or_lt_two_pow hlt hlt2
  rw [he] at hor
  exact hor

/-- Value of masking with bit 15, in arithmetic form. -/
lemma and_32768_eq (t : Nat) :
    t &&& 0x8000 = (if t / 32768 % 2 = 1 then 32768 else 0) := by
  rw [show (32768 : Nat) = 2 ^ 15 from by norm_num]
  rw [Nat.and_two_pow, Nat.testBit_to_div_mod]
  by_cases hd : t / 2 ^ 15 % 2 = 1
  · simp only [hd]
    norm_num
  · simp only [hd]
    norm_num

/-- Arithmetic form of the sign-flag decoding. -/
lemma am2320_decode_temp_eq (t : Nat) (ht : t < 65536) :
    am2320_decode_temp t =
      if 32768 ≤ t then -((t % 32768 : Nat) : Int) else (t : Int) := by
  have hand := and_32768_eq t
  have hmask : t &&& 0x7FFF = t % 32768 := Nat.and_pow_two_sub_one_eq_mod t 15
  unfold am2320_decode_temp
  by_cases hge : 32768 ≤ t
  · have hd : t / 32768 % 2 = 1 := by omega
    rw [hand, hmask]
    simp [hd, hge]
  · have hd : t / 32768 = 0 := by omega
    rw [hand]
    simp [hd, hge]

/-- Bounds on the decoded temperature word. -/
lemma am2320_decode_temp_bounds (t : Nat) (ht : t < 65536) :
    -32767 ≤ am2320_decode_temp t ∧ am2320_decode_temp t ≤ 32767 := by
  rw [am2320_decode_temp_eq t ht]
  by_cases hge : 32768 ≤ t
  · have h1 : t % 32768 < 32768 := Nat.mod_lt t (by norm_num)
    simp only [hge, if_true]
    omega
  · simp only [hge, if_false]
    omega

/-- Within the interval (elapsed not strictly greater), the call returns 0,
leaves the state untouched and performs no transport operation. -/
lemma read_values_not_expired (d : am2320_data) (env : i2c_env)
    (h : env.now - d.previous_poll_time ≤ d.min_poll_interval) :
    am2320_read_values d env = ⟨0, d, []⟩ := by
  have hexp : am2320_polltime_expired d env.now = false := by
    rw [← Bool.not_eq_true, polltime_expired_iff]
    omega
  unfold am2320_read_values
  simp [hexp]

/-- Once the interval has strictly elapsed, every branch of the call first
sends the wake probe and then the measure command. -/
lemma read_values_trace_take (d : am2320_data) (env : i2c_env)
    (h : d.min_poll_interval < env.now - d.previous_poll_time) :
    (am2320_read_values d env).trace.take 2
        = [i2c_op.send cmd_wake, i2c_op.send cmd_meas] := by
  have hexp : am2320_polltime_expired d env.now = true :=
    (polltime_expired_iff d env.now).mpr h
  unfold am2320_read_values
  split_ifs <;> simp_all

/-- A call that returns nonzero, or performs no transport operation, keeps
the cached temperature and humidity. -/
lemma read_values_cache_unchanged (d : am2320_data) (env : i2c_env)
    (h : (am2320_read_values d env).res ≠ 0 ∨ (am2320_read_values d env).trace = []) :
    (am2320_read_values d env).data.temperature = d.temperature ∧
    (am2320_read_values d env).data.humidity = d.humidity := by
  unfold am2320_read_values at *
  split_ifs at * <;> simp_all

/-! ## Concrete fixtures used by witnesses and counterexamples -/

/-- Frame from the spec scenario, with the correct CRC (0xC3F1) appended
big-endian: 03 04 00 C8 00 32 C3 F1. -/
def frame_valid_crc : List Nat := [0x03, 0x04, 0x00, 0xC8, 0x00, 0x32, 0xC3, 0xF1]

/-- Same header and payload with a wrong trailing checksum. -/
def frame_invalid_crc : List Nat := [0x03, 0x04, 0x00, 0xC8, 0x00, 0x32, 0x00, 0x00]

/-- Environment of a fully answered call 3 s after boot: both sends accepted,
8 bytes received, the valid-CRC frame in the buffer. -/
def env_valid_crc : i2c_env := ⟨3000000000, -1, 3, 8, frame_valid_crc, 3000001000⟩

/-- Same call with the invalid-CRC frame in the buffer. -/
def env_invalid_crc : i2c_env := ⟨3000000000, -1, 3, 8, frame_invalid_crc, 3000001000⟩

/-- Environment of a call whose measure-command send fails with -EIO. -/
def env_send_fail : i2c_env := ⟨3000000000, -1, -5, 0, [], 0⟩

/-- Environment of a call that receives only 3 of the 8 frame bytes. -/
def env_recv_short : i2c_env := ⟨3000000000, 0, 3, 3, [0x03, 0x04, 0x00], 0⟩

/-- Environment of a call that receives nothing at all. -/
def env_recv_none : i2c_env := ⟨3000000000, 0, 3, 0, [], 0⟩

/-- Call at now = 2000 ms with lastPollTime 0: elapsed equals the default
minimum poll interval exactly. -/
def env_boundary : i2c_env := ⟨2000000000, 0, 3, 8, frame_valid_crc, 2000001000⟩

/-- Call 1 s after boot, with a frame the driver would accept in the buffer. -/
def env_boot : i2c_env := ⟨1000000000, 0, 3, 8, frame_invalid_crc, 1000001000⟩

/-! ## Claims -/

/-- C1 (code bug): the checksum validation is inverted.  The spec-scenario
frame 03 04 00 C8 00 32 with its correct CRC 0xC3F1 appended big-endian
(first conjunct: the CRC computed over the first six bytes equals the
trailing two bytes read big-endian) is rejected by am2320_read_values with
-EIO and the cache is left unchanged, while the same frame with a wrong
trailing checksum passes the check and updates the cache.  am2320_crc16
returns the C truth value of crc == data_crc although its caller treats a
nonzero return as failure, contradicting the comment of the function itself that a
zero return means success. -/
theorem c1_crc_validation_inverted :
    am2320_crc16_compute (frame_valid_crc.take 6)
        = (frame_valid_crc.getD 6 0) <<< 8 ||| frame_valid_crc.getD 7 0 ∧
    (am2320_read_values am2320_probe_data env_valid_crc).res = -EIO_errno ∧
    (am2320_read_values am2320_probe_data env_valid_crc).data = am2320_probe_data ∧
    am2320_crc16_compute (frame_invalid_crc.take 6)
        ≠ (frame_invalid_crc.getD 6 0) <<< 8 ||| frame_invalid_crc.getD 7 0 ∧
    (am2320_read_values am2320_probe_data env_invalid_crc).res = 0 ∧
    (am2320_read_values am2320_probe_data env_invalid_crc).data.temperature = 5000 := by
  exact ⟨by decide, by decide, by decide, by decide, by decide, by decide⟩

/-- C2: on the successful transaction path the cache receives the big-endian
word of frame bytes 2-3 times 100 as humidity and the sign-flag decoding of
the big-endian word of bytes 4-5 times 100 as temperature; the decoding
negates the low 15 bits when bit 15 is set rather than taking twos
complement; temperature word 0x8032 scales to -5000 and 0x00C8 to 20000. -/
theorem c2_payload_decoding :
    (∀ (d : am2320_data) (env : i2c_env),
      (am2320_read_values d env).res = 0 → (am2320_read_values d env).trace ≠ [] →
      (am2320_read_values d env).data.humidity
          = (get_unaligned_be16 env.frame 2 : Int) * 100 ∧
      (am2320_read_values d env).data.temperature
          = am2320_decode_temp (get_unaligned_be16 env.frame 4) * 100) ∧
    (∀ t : Nat, t < 65536 →
      am2320_decode_temp t
          = if 32768 ≤ t then -((t % 32768 : Nat) : Int) else (t : Int)) ∧
    am2320_decode_temp 0x8032 * 100 = -5000 ∧
    am2320_decode_temp 0x00C8 * 100 = 20000 := by
  refine ⟨?_, am2320_decode_temp_eq, by decide, by decide⟩
  intro d env h0 htr
  unfold am2320_read_values at *
  split_ifs at * <;> simp_all [EIO_errno, ENODATA]

/-- C2 witness: the invalid-CRC environment takes the successful path (the
inverted check accepts it), so the theorem computes its cached values, and
the decoding facts hold at the concrete words. -/
theorem c2_payload_decoding_witness :
    (am2320_read_values am2320_probe_data env_invalid_crc).data.humidity = 20000 ∧
    am2320_decode_temp 0x8032 = -((0x8032 % 32768 : Nat) : Int) := by
  constructor
  · have h := (c2_payload_decoding.1 am2320_probe_data env_invalid_crc
      (by decide) (by decide)).1
    rw [h]
    decide
  · have h := c2_payload_decoding.2.1 0x8032 (by decide)
    rw [h]
    decide

/-- C3 counterexample: with the default 2000 ms interval and lastPollTime 0,
a call at now = 2000 ms has elapsed equal to minPollInterval; the claim says
such a call performs a device transaction, but the driver returns the cached
values with an empty transport trace (ktime_after is strict). -/
theorem c3_boundary_counterexample :
    env_boundary.now - am2320_probe_data.previous_poll_time
        = am2320_probe_data.min_poll_interval ∧
    am2320_read_values am2320_probe_data env_boundary
        = ⟨0, am2320_probe_data, []⟩ := by
  exact ⟨by decide, by decide⟩

/-- C3 (amended): if elapsed is at most minPollInterval the call returns the
cached values successfully with zero transport calls; once elapsed is
strictly greater than minPollInterval the call performs a device
transaction, beginning with the wake probe and the measure command. -/
theorem c3_rate_limiting (d : am2320_data) (env : i2c_env) :
    (env.now - d.previous_poll_time ≤ d.min_poll_interval →
      am2320_read_values d env = ⟨0, d, []⟩) ∧
    (d.min_poll_interval < env.now - d.previous_poll_time →
      (am2320_read_values d env).trace.take 2
          = [i2c_op.send cmd_wake, i2c_op.send cmd_meas]) :=
  ⟨read_values_not_expired d env, read_values_trace_take d env⟩

/-- C3 witness: concrete calls on both sides of the threshold. -/
theorem c3_rate_limiting_witness :
    am2320_read_values am2320_probe_data env_boundary
        = ⟨0, am2320_probe_data, []⟩ ∧
    (am2320_read_values am2320_probe_data env_invalid_crc).trace.take 2
        = [i2c_op.send cmd_wake, i2c_op.send cmd_meas] := by
  exact ⟨(c3_rate_limiting am2320_probe_data env_boundary).1 (by decide),
    (c3_rate_limiting am2320_probe_data env_invalid_crc).2 (by decide)⟩

/-- C4: every call that returns an error leaves the whole am2320_data
unchanged, and the previous poll time changes only on a call that returns
success, so a failed transaction never delays the next retry. -/
theorem c4_failure_atomicity (d : am2320_data) (env : i2c_env) :
    ((am2320_read_values d env).res ≠ 0 → (am2320_read_values d env).data = d) ∧
    ((am2320_read_values d env).data.previous_poll_time ≠ d.previous_poll_time →
      (am2320_read_values d env).res = 0) := by
  unfold am2320_read_values
  split_ifs <;> simp_all

/-- C4 witness: a failed send leaves the state intact, and the one call that
does move the poll time is a successful one. -/
theorem c4_failure_atomicity_witness :
    (am2320_read_values am2320_probe_data env_send_fail).data = am2320_probe_data ∧
    (am2320_read_values am2320_probe_data env_invalid_crc).res = 0 := by
  exact ⟨(c4_failure_atomicity am2320_probe_data env_send_fail).1 (by decide),
    (c4_failure_atomicity am2320_probe_data env_invalid_crc).2 (by decide)⟩

/-- C5: an interval write below 2000 ms fails with -EINVAL and changes
nothing; a write of at least 2000 ms succeeds and a subsequent interval
read returns exactly the written value. -/
theorem c5_interval_floor (d : am2320_data) (v : Int) :
    (v < 2000 → am2320_interval_write d v = (-EINVAL, d)) ∧
    (2000 ≤ v → (am2320_interval_write d v).1 = 0 ∧
      am2320_interval_read (am2320_interval_write d v).2 = v) := by
  constructor
  · intro h
    have hc : v < AM2320_MIN_POLL_INTERVAL := h
    simp [am2320_interval_write, hc]
  · intro h
    have hc : ¬ v < AM2320_MIN_POLL_INTERVAL := by
      simp only [AM2320_MIN_POLL_INTERVAL]
      omega
    refine ⟨by simp [am2320_interval_write, hc], ?_⟩
    simp only [am2320_interval_write, hc, if_false, am2320_interval_read,
      ktime_to_ms, ms_to_ktime, NSEC_PER_MSEC]
    exact Int.mul_ediv_cancel v (by norm_num)

/-- C5 witness: 1999 is rejected, 2000 is stored and read back. -/
theorem c5_interval_floor_witness :
    am2320_interval_write am2320_probe_data 1999 = (-EINVAL, am2320_probe_data) ∧
    (am2320_interval_write am2320_probe_data 2000).1 = 0 ∧
    am2320_interval_read (am2320_interval_write am2320_probe_data 2000).2 = 2000 := by
  exact ⟨(c5_interval_floor am2320_probe_data 1999).1 (by norm_num),
    ((c5_interval_floor am2320_probe_data 2000).2 (by norm_num)).1,
    ((c5_interval_floor am2320_probe_data 2000).2 (by norm_num)).2⟩

/-- C6 counterexample: a receive of 3 bytes (something arrived, wrong
length) produces exactly the same -ENODATA condition as a receive of 0
bytes (nothing arrived), not a distinct I/O error, so the error condition
does not distinguish the two cases. -/
theorem c6_no_length_distinction :
    (am2320_read_values am2320_probe_data env_recv_short).res = -ENODATA ∧
    (am2320_read_values am2320_probe_data env_recv_none).res = -ENODATA ∧
    (-ENODATA : Int) ≠ -EIO_errno := by
  exact ⟨by decide, by decide, by decide⟩

/-- C6 (amended): every receive whose byte count is not exactly 8 fails
with the cache unchanged; every nonnegative count other than 8, whether
zero bytes or a wrong positive length, yields the same no-data condition
(-ENODATA), and a negative receive result is propagated verbatim. -/
theorem c6_short_receive (d : am2320_data) (env : i2c_env)
    (hexp : am2320_polltime_expired d env.now = true)
    (hsend : 0 ≤ env.send_res) (hrecv : env.recv_res ≠ 8) :
    (am2320_read_values d env).res
        = (if 0 ≤ env.recv_res then -ENODATA else env.recv_res) ∧
    (am2320_read_values d env).data = d := by
  have h8 : ((AM2320_FRAME_SIZE : Nat) : Int) = 8 := by decide
  unfold am2320_read_values
  rw [h8]
  split_ifs <;> simp_all <;> omega

/-- C6 witness: the 3-byte receive fails with -ENODATA, state intact. -/
theorem c6_short_receive_witness :
    (am2320_read_values am2320_probe_data env_recv_short).res
        = (if (0 : Int) ≤ 3 then -ENODATA else 3) ∧
    (am2320_read_values am2320_probe_data env_recv_short).data = am2320_probe_data := by
  exact c6_short_receive am2320_probe_data env_recv_short
    (by decide) (by decide) (by decide)

/-- C7: am2320_read_values discards the result of the wake-probe send, so
its outcome, success or any error, changes neither the returned code, nor
the state, nor the operations performed, and is never surfaced. -/
theorem c7_wake_result_ignored (d : am2320_data) (env : i2c_env) (w : Int) :
    am2320_read_values d { env with wake_res := w } = am2320_read_values d env := rfl

/-- C8: whenever a transaction runs, the second transport operation is the
send of exactly the 3-byte measure command 0x03 0x00 0x04, and a negative
send result is returned verbatim with the whole state unchanged. -/
theorem c8_measure_command (d : am2320_data) (env : i2c_env)
    (hexp : am2320_polltime_expired d env.now = true) :
    cmd_meas = [0x03, 0x00, 0x04] ∧
    (am2320_read_values d env).trace.take 2
        = [i2c_op.send cmd_wake, i2c_op.send cmd_meas] ∧
    (env.send_res < 0 →
      (am2320_read_values d env).res = env.send_res ∧
      (am2320_read_values d env).data = d) := by
  refine ⟨by decide, ?_, ?_⟩
  · exact read_values_trace_take d env ((polltime_expired_iff d env.now).mp hexp)
  · intro hsend
    unfold am2320_read_values
    split_ifs
    all_goals simp_all

/-- C8 witness: a concrete failed measure send. -/
theorem c8_measure_command_witness :
    (am2320_read_values am2320_probe_data env_send_fail).res = env_send_fail.send_res ∧
    (am2320_read_values am2320_probe_data env_send_fail).data = am2320_probe_data := by
  exact (c8_measure_command am2320_probe_data env_send_fail (by decide)).2.2 (by decide)

/-- C9 counterexample: previous_poll_time is zero-initialized (boot time),
not infinitely in the past.  At clock value 1 s after boot, a possible
creation time, the first read returns success with the zero-initialized
cache and performs no transport operation at all. -/
theorem c9_first_read_counterexample :
    am2320_read_values am2320_probe_data env_boot = ⟨0, am2320_probe_data, []⟩ ∧
    am2320_probe_data.temperature = 0 ∧ am2320_probe_data.humidity = 0 := by
  exact ⟨by decide, by decide, by decide⟩

/-- C9 (amended): the freshly probed state has previous_poll_time 0, so the
first read performs a transaction exactly when the boottime clock is
strictly beyond the 2000 ms default interval; at or before 2000 ms after
boot it returns the zero-initialized cache with no transaction. -/
theorem c9_first_read_transacts_iff (env : i2c_env) :
    (env.now ≤ ms_to_ktime 2000 →
      am2320_read_values am2320_probe_data env = ⟨0, am2320_probe_data, []⟩) ∧
    (ms_to_ktime 2000 < env.now →
      (am2320_read_values am2320_probe_data env).trace.take 2
          = [i2c_op.send cmd_wake, i2c_op.send cmd_meas]) := by
  constructor
  · intro h
    exact read_values_not_expired am2320_probe_data env
      (by simpa [am2320_probe_data, ms_to_ktime, NSEC_PER_MSEC,
        AM2320_DEFAULT_MIN_POLL_INTERVAL] using h)
  · intro h
    exact read_values_trace_take am2320_probe_data env
      (by simpa [am2320_probe_data, ms_to_ktime, NSEC_PER_MSEC,
        AM2320_DEFAULT_MIN_POLL_INTERVAL] using h)

/-- C9 witness: concrete first reads just inside and just outside the boot
window. -/
theorem c9_first_read_transacts_iff_witness :
    am2320_read_values am2320_probe_data env_boot = ⟨0, am2320_probe_data, []⟩ ∧
    (am2320_read_values am2320_probe_data env_invalid_crc).trace.take 2
        = [i2c_op.send cmd_wake, i2c_op.send cmd_meas] := by
  exact ⟨(c9_first_read_transacts_iff env_boot).1 (by decide),
    (c9_first_read_transacts_iff env_invalid_crc).2 (by decide)⟩

/-- Invariant claimed for the cached readings: multiples of 100 within the
ranges a decoded 16-bit word times 100 can reach. -/
def cache_inv (d : am2320_data) : Prop :=
  d.temperature % 100 = 0 ∧ d.humidity % 100 = 0 ∧
  -3276700 ≤ d.temperature ∧ d.temperature ≤ 3276700 ∧
  0 ≤ d.humidity ∧ d.humidity ≤ 6553500

/-- Byte buffers delivered by the i2c transport hold byte values. -/
def frame_bytes (env : i2c_env) : Prop := ∀ b ∈ env.frame, b < 256

instance (d : am2320_data) : Decidable (cache_inv d) := by
  unfold cache_inv
  infer_instance

instance (env : i2c_env) : Decidable (frame_bytes env) := by
  unfold frame_bytes
  exact List.decidableBAll _ _

/-- Preservation of the cache invariant by a read call. -/
lemma cache_inv_read_values (d : am2320_data) (env : i2c_env)
    (hinv : cache_inv d) (hb : frame_bytes env) :
    cache_inv (am2320_read_values d env).data := by
  unfold am2320_read_values
  split_ifs <;> try exact hinv
  have ht := get_unaligned_be16_lt env.frame 4 hb
  have hh := get_unaligned_be16_lt env.frame 2 hb
  have htb := am2320_decode_temp_bounds (get_unaligned_be16 env.frame 4) ht
  unfold cache_inv
  simp only
  refine ⟨?_, ?_, ?_, ?_, ?_, ?_⟩ <;> omega

/-- C10: the cache invariant (values are multiples of 100, temperature in
[-3276700, 3276700], humidity in [0, 6553500]) holds at creation where both
are zero, is preserved by every read call on byte-valued frames and by
every interval write, and neither cached value changes except on a call
that both succeeds and actually transacts. -/
theorem c10_cache_invariant :
    (cache_inv am2320_probe_data ∧ am2320_probe_data.temperature = 0 ∧
      am2320_probe_data.humidity = 0) ∧
    (∀ (d : am2320_data) (env : i2c_env), cache_inv d → frame_bytes env →
      cache_inv (am2320_read_values d env).data) ∧
    (∀ (d : am2320_data) (v : Int), cache_inv d →
      cache_inv (am2320_interval_write d v).2 ∧
      (am2320_interval_write d v).2.temperature = d.temperature ∧
      (am2320_interval_write d v).2.humidity = d.humidity) ∧
    (∀ (d : am2320_data) (env : i2c_env),
      (am2320_read_values d env).res ≠ 0 ∨ (am2320_read_values d env).trace = [] →
      (am2320_read_values d env).data.temperature = d.temperature ∧
      (am2320_read_values d env).data.humidity = d.humidity) := by
  refine ⟨⟨by decide, by decide, by decide⟩, cache_inv_read_values, ?_, ?_⟩
  · intro d v hinv
    unfold am2320_interval_write
    split_ifs <;> exact ⟨hinv, rfl, rfl⟩
  · exact read_values_cache_unchanged

/-- C10 witness: concrete preservation instances. -/
theorem c10_cache_invariant_witness :
    cache_inv (am2320_read_values am2320_probe_data env_invalid_crc).data ∧
    cache_inv (am2320_interval_write am2320_probe_data 5000).2 ∧
    (am2320_read_values am2320_probe_data env_send_fail).data.temperature
        = am2320_probe_data.temperature := by
  exact ⟨c10_cache_invariant.2.1 am2320_probe_data env_invalid_crc
      (by decide) (by decide),
    (c10_cache_invariant.2.2.1 am2320_probe_data 5000 (by decide)).1,
    (c10_cache_invariant.2.2.2 am2320_probe_data env_send_fail (by decide)).1⟩

end AM2320
